import Mathlib

/-!
Verification development for the sub-agent monitor and notifier skill
(src/skills/subagent-monitor-notifier/skill.py together with the shared
logging helper in src/shared/utils.py).

The Python classes and methods are shallowly embedded as Lean definitions:

* dictionaries become association lists (`lookupA` / `insertA`),
* Python sets become lists with membership tests,
* `datetime.now().isoformat()` values are passed in as opaque strings,
* the status file read performed by `_fetch_agent_status` is a parameter
  `fileStatus : String -> Option AgentStatusSnapshot` (`none` covers both a
  missing file and a file that fails to parse, which the source logs and
  ignores),
* a per-agent exception inside `_poll_agents`' try block (a `KeyError` from
  `self.status_changes[agent_id]` or `self.status_history[agent_id]` when the
  key is absent) is modelled by returning the state accumulated up to the
  raising line, matching the `except` clause that logs and continues,
* `hashlib.md5(s).hexdigest()` is modelled by `md5_hexdigest`, a deterministic
  function of its input string; the deduplication argument only relies on
  determinism (equal inputs give equal digests).
-/

/-- The `AgentStatus` enum of skill.py (lines 60-68). -/
inductive AgentStatus where
  | pending
  | running
  | completed
  | failed
  | timeout
  | cancelled
  | unknown
deriving DecidableEq

/-- The `.value` of each `AgentStatus` member, exactly as in the source. -/
def AgentStatus.value : AgentStatus → String
  | .pending => "pending"
  | .running => "running"
  | .completed => "completed"
  | .failed => "failed"
  | .timeout => "timeout"
  | .cancelled => "cancelled"
  | .unknown => "unknown"

/-- The `AgentStatusSnapshot` dataclass (skill.py lines 81-91).  The opaque
`details` mapping is modelled as an association list of strings. -/
structure AgentStatusSnapshot where
  agent_id : String
  agent_name : String
  status : String
  timestamp : String
  details : List (String × String)
  error_message : Option String := none
  completion_percentage : Int := 0
  session_id : Option String := none
deriving DecidableEq

/-- The `StatusChange` dataclass (skill.py lines 94-102). -/
structure StatusChange where
  agent_id : String
  previous_status : String
  new_status : String
  timestamp : String
  reason : Option String := none
  change_hash : Option String := none
deriving DecidableEq

/-- Dictionary lookup (`d.get(k)` / `k in d`), on an association list. -/
def lookupA {α : Type} (l : List (String × α)) (k : String) : Option α :=
  match l with
  | [] => none
  | (k₁, v) :: rest => if k₁ = k then some v else lookupA rest k

/-- Dictionary update (`d[k] = v`), on an association list: replaces the
binding of `k` if present, otherwise appends a new binding. -/
def insertA {α : Type} (l : List (String × α)) (k : String) (v : α) :
    List (String × α) :=
  match l with
  | [] => [(k, v)]
  | (k₁, v₁) :: rest =>
    if k₁ = k then (k, v) :: rest else (k₁, v₁) :: insertA rest k v

/-- The mutable state of a `SubAgentMonitor` instance (skill.py lines
121-158): the configuration fields of `__init__` plus the tracking
dictionaries, the dedup set `alert_cache`, and the two booleans.  The
APScheduler object is reduced to the flag `scheduler_running`
(`self.scheduler is not None and self.scheduler.running`); the scheduler
object itself exists exactly when `enable_scheduling` is true. -/
structure MonitorState where
  poll_interval : Int := 60
  retention_days : Int := 7
  notification_channels : List String := ["log"]
  enable_scheduling : Bool := true
  agent_statuses : List (String × AgentStatusSnapshot) := []
  status_history : List (String × List AgentStatusSnapshot) := []
  status_changes : List (String × List StatusChange) := []
  last_poll_time : List (String × String) := []
  alert_cache : List String := []
  polling_active : Bool := false
  scheduler_running : Bool := false
deriving DecidableEq

/-- A freshly constructed `SubAgentMonitor()` with the default configuration. -/
def initMonitor : MonitorState := {}

/-- The placeholder snapshot built with `status=AgentStatus.UNKNOWN.value`
(skill.py lines 191-197 and 322-328). -/
def unknownSnapshot (agent_id now : String) : AgentStatusSnapshot :=
  { agent_id := agent_id
    agent_name := agent_id
    status := AgentStatus.unknown.value
    timestamp := now
    details := [] }

/-- The digest input `f"{agent_id}:{change.previous_status}:{change.new_status}"`
(skill.py line 269). -/
def changeStr (agent_id prev new : String) : String :=
  agent_id ++ ":" ++ prev ++ ":" ++ new

/-- Model of `hashlib.md5(s.encode()).hexdigest()`: a deterministic function
of the input string (the model returns the input itself).  Every property
proved below uses only that equal inputs yield equal digests. -/
def md5_hexdigest (s : String) : String := s

/-- The dedup fingerprint computed at skill.py line 270. -/
def changeHash (agent_id prev new : String) : String :=
  md5_hexdigest (changeStr agent_id prev new)

/-- Reads the `change_hash` field the way line 273 does (`change.change_hash`);
for every change built by `detect_change` the field is populated. -/
def changeHashOf (c : StatusChange) : String :=
  c.change_hash.getD ""

/-- The `(agent_id, previous_status, new_status)` transition triple of a
change. -/
def tripleOf (c : StatusChange) : String × String × String :=
  (c.agent_id, c.previous_status, c.new_status)

/-- The fingerprint of a change recomputed from its own triple. -/
def hashOfTriple (c : StatusChange) : String :=
  changeHash c.agent_id c.previous_status c.new_status

/-- The change-detection part of `_poll_agents` (skill.py lines 256-270):
given the last-known snapshot (`self.agent_statuses.get(agent_id)`) and the
freshly fetched one, builds a `StatusChange` carrying its dedup hash exactly
when a previous snapshot exists and the statuses differ. -/
def detect_change (agent_id : String) (previous_status : Option AgentStatusSnapshot)
    (current_status : AgentStatusSnapshot) (now : String) : Option StatusChange :=
  match previous_status with
  | none => none
  | some prev =>
    if current_status.status ≠ prev.status then
      some
        { agent_id := agent_id
          previous_status := prev.status
          new_status := current_status.status
          timestamp := now
          reason := some ("Status change detected: " ++ prev.status ++ " -> " ++
            current_status.status)
          change_hash := some (changeHash agent_id prev.status current_status.status) }
    else none

/-- `_fetch_agent_status` (skill.py lines 296-328): use the parsed status
file when available, otherwise the currently known snapshot, otherwise a
fresh `unknown` snapshot. -/
def fetch_agent_status (fileStatus : String → Option AgentStatusSnapshot)
    (st : MonitorState) (agent_id now : String) : AgentStatusSnapshot :=
  match fileStatus agent_id with
  | some snap => snap
  | none =>
    match lookupA st.agent_statuses agent_id with
    | some s => s
    | none => unknownSnapshot agent_id now

/-- Lines 281-284 of `_poll_agents`: unconditionally store the fetched
snapshot as current, append it to the history, and stamp the poll time.  The
history append (`self.status_history[agent_id].append(...)`) raises `KeyError`
when the key is absent; the surrounding `except` then skips the remaining
lines, so in that case the state keeps only the `agent_statuses` update. -/
def update_tail (st : MonitorState) (agent_id : String)
    (current_status : AgentStatusSnapshot) (now : String) : MonitorState :=
  match lookupA st.status_history agent_id with
  | none => { st with agent_statuses := insertA st.agent_statuses agent_id current_status }
  | some h =>
    { st with
      agent_statuses := insertA st.agent_statuses agent_id current_status
      status_history := insertA st.status_history agent_id (h ++ [current_status])
      last_poll_time := insertA st.last_poll_time agent_id now }

/-- The per-agent body of `_poll_agents` (skill.py lines 251-292).  The
accumulator carries the monitor state and the `changes` list of the cycle.
When a novel change is found, `self.status_changes[agent_id]` is read before
appending (line 274); a missing key raises `KeyError` there, which the
`except` clause turns into a skip of the whole remaining body. -/
def poll_agent_step (fileStatus : String → Option AgentStatusSnapshot)
    (st : MonitorState) (changes : List StatusChange) (agent_id now : String) :
    MonitorState × List StatusChange :=
  match detect_change agent_id (lookupA st.agent_statuses agent_id)
      (fetch_agent_status fileStatus st agent_id now) now with
  | none =>
    (update_tail st agent_id (fetch_agent_status fileStatus st agent_id now) now, changes)
  | some change =>
    if changeHashOf change ∈ st.alert_cache then
      (update_tail st agent_id (fetch_agent_status fileStatus st agent_id now) now, changes)
    else
      match lookupA st.status_changes agent_id with
      | none => (st, changes)
      | some recorded =>
        (update_tail
          { st with
            status_changes := insertA st.status_changes agent_id (recorded ++ [change])
            alert_cache := changeHashOf change :: st.alert_cache }
          agent_id (fetch_agent_status fileStatus st agent_id now) now,
         changes ++ [change])

/-- `_poll_agents` (skill.py lines 241-294): fold the per-agent body over the
agent list, starting from an empty `changes` list.  For each change appended
to the result, `_send_notifications` was invoked exactly once (line 279), so
the returned list also enumerates the notification dispatches of the cycle. -/
def poll_agents (fileStatus : String → Option AgentStatusSnapshot)
    (st : MonitorState) (agent_ids : List String) (now : String) :
    MonitorState × List StatusChange :=
  agent_ids.foldl (fun acc agent_id => poll_agent_step fileStatus acc.1 acc.2 agent_id now)
    (st, [])

/-- The initialization loop of `start_monitoring` (skill.py lines 189-199):
for every listed agent, overwrite its current snapshot with a fresh `unknown`
snapshot and reset its history and changes to empty lists. -/
def init_agents (st : MonitorState) (agent_ids : List String) (now : String) :
    MonitorState :=
  agent_ids.foldl
    (fun s agent_id =>
      { s with
        agent_statuses := insertA s.agent_statuses agent_id (unknownSnapshot agent_id now)
        status_history := insertA s.status_history agent_id []
        status_changes := insertA s.status_changes agent_id [] })
    st

/-- The result dictionary of `start_monitoring` (skill.py lines 180-187 and
215-216, 231, 235). -/
structure StartResult where
  status : String
  agents : List String
  poll_interval : Int
  timestamp : String
  scheduling_enabled : Bool
  notification_channels : List String
  scheduled : Option Bool := none
  schedule_pattern : Option String := none
  scheduling_error : Option String := none
  initial_poll_changes : Option Nat := none
deriving DecidableEq

/-- `start_monitoring` (skill.py lines 162-239): build the result dictionary,
re-initialize every listed agent, optionally arm the cron job (the scheduler
exists exactly when `enable_scheduling`; `CronTrigger.from_crontab` raising on
an invalid pattern is modelled by the external predicate `cronValid`), run one
synchronous poll cycle, and set `polling_active`. -/
def start_monitoring (fileStatus : String → Option AgentStatusSnapshot)
    (cronValid : String → Bool) (st : MonitorState) (agent_ids : List String)
    (schedule_pattern : Option String) (now : String) :
    MonitorState × StartResult :=
  let base : StartResult :=
    { status := "monitoring_started"
      agents := agent_ids
      poll_interval := st.poll_interval
      timestamp := now
      scheduling_enabled := st.enable_scheduling
      notification_channels := st.notification_channels }
  let st₁ := init_agents st agent_ids now
  let armed : MonitorState × StartResult :=
    match schedule_pattern with
    | some pat =>
      if st₁.enable_scheduling && !st₁.polling_active then
        if cronValid pat then
          ({ st₁ with scheduler_running := true },
           { base with scheduled := some true, schedule_pattern := some pat })
        else
          (st₁, { base with scheduling_error := some ("invalid cron pattern: " ++ pat) })
      else (st₁, base)
    | none => (st₁, base)
  let polled := poll_agents fileStatus armed.1 agent_ids now
  ({ polled.1 with polling_active := true },
   { armed.2 with initial_poll_changes := some polled.2.length })

/-- The result dictionary of `stop_monitoring` (skill.py lines 576-580). -/
structure StopResult where
  status : String
  agent_id : Option String
  timestamp : String
deriving DecidableEq

/-- Python truthiness of an `Optional[str]` value: `None` and the empty
string are falsy, every other string is truthy. -/
def truthyStr : Option String → Bool
  | none => false
  | some s => !(s = "")

/-- `stop_monitoring` (skill.py lines 565-580): with a truthy `agent_id`
(line 569 tests `if agent_id:`, so `None` and `""` are both falsy) the method
only logs; with a falsy one it shuts the scheduler down and clears
`polling_active`.  Either way it returns a `monitoring_stopped` record. -/
def stop_monitoring (st : MonitorState) (agent_id : Option String) (now : String) :
    MonitorState × StopResult :=
  let st₁ :=
    if st.enable_scheduling && st.scheduler_running then
      if truthyStr agent_id then st
      else { st with scheduler_running := false, polling_active := false }
    else st
  (st₁, { status := "monitoring_stopped", agent_id := agent_id, timestamp := now })

/-- Python `s.lower()`, computed on the character list. -/
def toLowerStr (s : String) : String :=
  String.mk (s.toList.map Char.toLower)

/-- Python `s.startswith(pre)`, computed on the character lists. -/
def startsWithStr (s pre : String) : Bool :=
  pre.toList.isPrefixOf s.toList

/-- Python list slicing `l[s:]` with a possibly negative start index `s`. -/
def pySliceFrom {α : Type} (l : List α) (s : Int) : List α :=
  l.drop (if s < 0 then max 0 ((l.length : Int) + s) else min s (l.length : Int)).toNat

/-- The success payload of `get_agent_status` (skill.py lines 543-551). -/
structure AgentStatusReport where
  agent_id : String
  current_status : String
  last_updated : String
  details : List (String × String)
  error : Option String
  progress : Int
  recent_changes : List StatusChange
deriving DecidableEq

/-- The two shapes `get_agent_status` can return: the error dictionary of
lines 536-539 or the status report of lines 543-551. -/
inductive AgentStatusResult where
  | err (message : String)
  | ok (report : AgentStatusReport)
deriving DecidableEq

/-- `get_agent_status` (skill.py lines 532-551).  `none` models the uncaught
`KeyError` raised at line 550 when the agent has a current snapshot but no
`status_changes` entry. -/
def get_agent_status (st : MonitorState) (agent_id : String) :
    Option AgentStatusResult :=
  match lookupA st.agent_statuses agent_id with
  | none => some (.err ("Agent " ++ agent_id ++ " not being monitored"))
  | some snapshot =>
    match lookupA st.status_changes agent_id with
    | none => none
    | some cs =>
      some (.ok
        { agent_id := agent_id
          current_status := snapshot.status
          last_updated := snapshot.timestamp
          details := snapshot.details
          error := snapshot.error_message
          progress := snapshot.completion_percentage
          recent_changes := pySliceFrom cs (-5) })

/-- `get_status_history` (skill.py lines 553-563): an unknown agent yields the
empty list; otherwise the Python slice `history[-limit:]`. -/
def get_status_history (st : MonitorState) (agent_id : String) (limit : Int) :
    List AgentStatusSnapshot :=
  match lookupA st.status_history agent_id with
  | none => []
  | some h => pySliceFrom h (-limit)

/-- The `input_data` dictionary consumed by `execute_skill` (skill.py lines
586-594); absent keys are `none`. -/
structure SkillInput where
  action : Option String := none
  agent_ids : Option (List String) := none
  agent_id : Option String := none
  schedule_pattern : Option String := none
  limit : Option Int := none

/-- The `data` payload of a successful `execute_skill` call, one constructor
per action. -/
inductive SkillData where
  | startData (r : StartResult)
  | stopData (r : StopResult)
  | statusData (r : AgentStatusResult)
  | historyData (r : List AgentStatusSnapshot)
deriving DecidableEq

/-- The top-level shape of an `execute_skill` result: `{"status": "success",
"data": ...}` or one of the two error dictionaries (unknown action at lines
643-647, caught exception at lines 657-661). -/
inductive SkillResult where
  | success (data : SkillData)
  | errorResult (err : String)
deriving DecidableEq

/-- Whether an `execute_skill` result has `"status": "success"`. -/
def SkillResult.isSuccess : SkillResult → Bool
  | .success _ => true
  | .errorResult _ => false

/-- `execute_skill` (skill.py lines 582-661).  With action `status` and no
`agent_id` key, Python calls `get_agent_status(None)`; since `None` is never a
dictionary key this takes the not-monitored branch, printed as `Agent None`.
A `KeyError` escaping `get_agent_status` is caught by the outer handler and
returned as an error dictionary. -/
def execute_skill (fileStatus : String → Option AgentStatusSnapshot)
    (cronValid : String → Bool) (st : MonitorState) (input : SkillInput)
    (now : String) : MonitorState × SkillResult :=
  let action := toLowerStr (input.action.getD "start")
  if action = "start" then
    let started := start_monitoring fileStatus cronValid st (input.agent_ids.getD [])
      input.schedule_pattern now
    (started.1, .success (.startData started.2))
  else if action = "stop" then
    let stopped := stop_monitoring st input.agent_id now
    (stopped.1, .success (.stopData stopped.2))
  else if action = "status" then
    match input.agent_id with
    | none => (st, .success (.statusData (.err "Agent None not being monitored")))
    | some aid =>
      match get_agent_status st aid with
      | some r => (st, .success (.statusData r))
      | none => (st, .errorResult "KeyError")
  else if action = "history" then
    match input.agent_id with
    | none => (st, .success (.historyData []))
    | some aid =>
      (st, .success (.historyData (get_status_history st aid (input.limit.getD 100))))
  else (st, .errorResult ("Unknown action: " ++ action))

/-- One scheduled invocation of `_poll_agents`: the status-file contents seen
during that cycle, the agent list passed to the job, and the wall-clock time. -/
structure PollCycle where
  fileStatus : String → Option AgentStatusSnapshot
  agent_ids : List String
  now : String

/-- Runs a sequence of poll cycles, accumulating the monitor state and every
`StatusChange` returned (equivalently, every notification dispatch). -/
def run_polls : List PollCycle → MonitorState × List StatusChange →
    MonitorState × List StatusChange
  | [], acc => acc
  | cy :: rest, acc =>
    let step := poll_agents cy.fileStatus acc.1 cy.agent_ids cy.now
    run_polls rest (step.1, acc.2 ++ step.2)

/-- All emitted changes of a cycle sequence starting from a given state. -/
def monitor_run (cycles : List PollCycle) (st : MonitorState) :
    MonitorState × List StatusChange :=
  run_polls cycles (st, [])

/-- Length of an agent's recorded history (an unregistered agent counts as 0). -/
def histLen (st : MonitorState) (agent_id : String) : Nat :=
  ((lookupA st.status_history agent_id).getD []).length

/-- Invariant tying the emitted changes to the dedup cache: no two emitted
changes share a transition triple, and every emitted change already has its
fingerprint in `alert_cache`. -/
def CacheInv (st : MonitorState) (out : List StatusChange) : Prop :=
  List.Pairwise (fun c₁ c₂ => tripleOf c₁ ≠ tripleOf c₂) out
  ∧ ∀ c ∈ out, hashOfTriple c ∈ st.alert_cache

/-- The log level selected by `_notify_log` (skill.py line 378):
`"WARNING" if change.new_status in ["FAILED", "TIMEOUT"] else "INFO"`. -/
def notify_log_level (change : StatusChange) : String :=
  if change.new_status = "FAILED" ∨ change.new_status = "TIMEOUT" then "WARNING"
  else "INFO"

/-- The attachment color selected by `_notify_slack` (skill.py line 469):
`"danger" if change.new_status in ["failed", "timeout"] else "good"`. -/
def notify_slack_color (change : StatusChange) : String :=
  if change.new_status = "failed" ∨ change.new_status = "timeout" then "danger"
  else "good"

/-- The outcome of the external `requests.post` collaborator: it returns (any
HTTP status; the source never checks it) or raises an exception carrying a
message and a type name. -/
inductive PostOutcome where
  | ok
  | exc (msg : String) (error_type : String)
deriving DecidableEq

/-- One structured record written by `safe_log_api_call` (shared/utils.py
lines 103-128): API name, operation, outcome status, and the masked details. -/
structure LogRecord where
  api_name : String
  operation : String
  status : String
  details : List (String × String)
deriving DecidableEq

/-- The masked keys of `safe_log_api_call` (shared/utils.py line 116). -/
def sensitive_keys : List String := ["api_key", "token", "secret", "password"]

/-- The masking loop of `safe_log_api_call` (shared/utils.py lines 114-119). -/
def mask_details (details : List (String × String)) : List (String × String) :=
  details.map (fun kv => if kv.1 ∈ sensitive_keys then (kv.1, "***REDACTED***") else kv)

/-- `safe_log_api_call` as a pure description of the record it logs. -/
def safe_log_api_call (api_name operation status : String)
    (details : List (String × String)) : LogRecord :=
  { api_name := api_name
    operation := operation
    status := status
    details := mask_details details }

/-- `_notify_webhook` (skill.py lines 405-452), described by the structured
log records it emits.  `webhook_url` is the `NOTIFICATION_WEBHOOK_URL`
environment value, `post` the external delivery collaborator.  The debug and
error messages of the guard branches go through the plain logger, not
`safe_log_api_call`, so they produce no structured record. -/
def notify_webhook (webhook_url : Option String) (post : String → PostOutcome)
    (change : StatusChange) : List LogRecord :=
  match webhook_url with
  | none => []
  | some url =>
    if !(startsWithStr url "http://" || startsWithStr url "https://") then []
    else
      let sending := safe_log_api_call "SubAgentMonitor" "notify_webhook" "sending"
        [("agent_id", change.agent_id), ("status", change.new_status)]
      match post url with
      | .ok =>
        [sending,
         safe_log_api_call "SubAgentMonitor" "notify_webhook" "success"
           [("agent_id", change.agent_id)]]
      | .exc msg ty =>
        [sending,
         safe_log_api_call "SubAgentMonitor" "notify_webhook" "error"
           [("error", msg), ("error_type", ty)]]

/-- `_notify_slack` (skill.py lines 454-502), same shape as the webhook
channel; the colored payload is sent to the collaborator, never logged. -/
def notify_slack (slack_webhook : Option String) (post : String → PostOutcome)
    (change : StatusChange) : List LogRecord :=
  match slack_webhook with
  | none => []
  | some url =>
    if !(startsWithStr url "http://" || startsWithStr url "https://") then []
    else
      let sending := safe_log_api_call "SubAgentMonitor" "notify_slack" "sending"
        [("agent_id", change.agent_id), ("status", change.new_status)]
      match post url with
      | .ok =>
        [sending,
         safe_log_api_call "SubAgentMonitor" "notify_slack" "success"
           [("agent_id", change.agent_id)]]
      | .exc msg ty =>
        [sending,
         safe_log_api_call "SubAgentMonitor" "notify_slack" "error"
           [("error", msg), ("error_type", ty)]]

/-- Concrete fixture: a status source that always reports `running`. -/
def fetchRunning : String → Option AgentStatusSnapshot :=
  fun agent_id =>
    some
      { agent_id := agent_id
        agent_name := agent_id
        status := "running"
        timestamp := "t1"
        details := [] }

/-- Concrete fixture: the state right after registering agent `a`. -/
def stRegistered : MonitorState := init_agents initMonitor ["a"] "t0"

/-- Concrete fixture: the initial `unknown` snapshot of agent `a`. -/
def snapUnknownA : AgentStatusSnapshot := unknownSnapshot "a" "t0"

/-- Concrete fixture: agent `a` observed `running`. -/
def snapRunningA : AgentStatusSnapshot :=
  { agent_id := "a"
    agent_name := "a"
    status := "running"
    timestamp := "t1"
    details := [] }

/-- Concrete fixture: the recorded `unknown -> running` transition of agent
`a`. -/
def changeA : StatusChange :=
  { agent_id := "a"
    previous_status := "unknown"
    new_status := "running"
    timestamp := "t1"
    reason := none
    change_hash := some (changeHash "a" "unknown" "running") }

/-- Concrete fixture: a monitor that has been watching agent `a` for a while:
current status `running`, two history entries, one recorded change. -/
def stMonitored : MonitorState :=
  { agent_statuses := [("a", snapRunningA)]
    status_history := [("a", [snapUnknownA, snapRunningA])]
    status_changes := [("a", [changeA])]
    alert_cache := [changeHash "a" "unknown" "running"]
    polling_active := true }

/-- Concrete fixture: the same monitoring state with a cron job armed, so
the scheduler is running. -/
def stSched : MonitorState := { stMonitored with scheduler_running := true }

/-- Concrete fixture: a transition record with the given statuses. -/
def mkChange (prev new : String) : StatusChange :=
  { agent_id := "agent-1"
    previous_status := prev
    new_status := new
    timestamp := "t"
    reason := none
    change_hash := none }

/-- Concrete fixture: the `running -> failed` change used in channel claims. -/
def sampleChange : StatusChange := mkChange "running" "failed"

/-- Concrete fixture: a delivery collaborator whose exception message embeds
the URL it was given, like the connection errors of the real HTTP client. -/
def leakPost : String → PostOutcome :=
  fun url => .exc ("HTTPSConnectionPool: failed to reach " ++ url) "ConnectionError"

/-- Looking up the key just inserted returns the inserted value. -/
theorem lookupA_insertA_self {α : Type} (l : List (String × α)) (k : String) (v : α) :
    lookupA (insertA l k v) k = some v := by
  induction l with
  | nil => simp [insertA, lookupA]
  | cons hd tl ih =>
    obtain ⟨k₁, v₁⟩ := hd
    by_cases h : k₁ = k
    · simp [insertA, lookupA, h]
    · simp [insertA, lookupA, h, ih]

/-- Inserting at one key leaves every other key's binding unchanged. -/
theorem lookupA_insertA_ne {α : Type} (l : List (String × α)) (k k₁ : String) (v : α)
    (h : k ≠ k₁) : lookupA (insertA l k v) k₁ = lookupA l k₁ := by
  induction l with
  | nil => simp [insertA, lookupA, h]
  | cons hd tl ih =>
    obtain ⟨k₂, v₂⟩ := hd
    by_cases h₂ : k₂ = k
    · subst h₂; simp [insertA, lookupA, h]
    · simp [insertA, lookupA, h₂, ih]

/-- `update_tail` never touches the recorded changes. -/
theorem update_tail_status_changes (st : MonitorState) (agent_id : String)
    (cur : AgentStatusSnapshot) (now : String) :
    (update_tail st agent_id cur now).status_changes = st.status_changes := by
  unfold update_tail
  cases lookupA st.status_history agent_id <;> rfl

/-- `update_tail` never touches the dedup cache. -/
theorem update_tail_alert_cache (st : MonitorState) (agent_id : String)
    (cur : AgentStatusSnapshot) (now : String) :
    (update_tail st agent_id cur now).alert_cache = st.alert_cache := by
  unfold update_tail
  cases lookupA st.status_history agent_id <;> rfl

/-- `update_tail` stores the fetched snapshot as the current one. -/
theorem update_tail_agent_statuses (st : MonitorState) (agent_id : String)
    (cur : AgentStatusSnapshot) (now : String) :
    lookupA (update_tail st agent_id cur now).agent_statuses agent_id = some cur := by
  unfold update_tail
  cases lookupA st.status_history agent_id <;>
    simp [lookupA_insertA_self]

/-- Every change built by `detect_change` carries the fingerprint of its own
transition triple in its `change_hash` field. -/
theorem detect_change_hash_eq (agent_id : String) (p : Option AgentStatusSnapshot)
    (cur : AgentStatusSnapshot) (now : String) (c : StatusChange)
    (h : detect_change agent_id p cur now = some c) :
    changeHashOf c = hashOfTriple c := by
  unfold detect_change at h
  cases p with
  | none => simp at h
  | some prev =>
    by_cases hs : cur.status = prev.status
    · simp [hs] at h
    · simp only [ne_eq, hs, not_false_eq_true, if_true, Option.some.injEq] at h
      subst h
      rfl

/-- Equal transition triples have equal fingerprints. -/
theorem hash_eq_of_triple_eq (c₁ c₂ : StatusChange) (h : tripleOf c₁ = tripleOf c₂) :
    hashOfTriple c₁ = hashOfTriple c₂ := by
  unfold tripleOf at h
  simp only [Prod.mk.injEq] at h
  obtain ⟨h₁, h₂, h₃⟩ := h
  unfold hashOfTriple
  rw [h₁, h₂, h₃]

/-- The per-agent poll body can only grow the dedup cache: every previously
cached fingerprint is still cached afterwards. -/
theorem poll_agent_step_inv (fileStatus : String → Option AgentStatusSnapshot)
    (P : List StatusChange) (st : MonitorState) (cs : List StatusChange)
    (agent_id now : String) (h : CacheInv st (P ++ cs)) :
    CacheInv (poll_agent_step fileStatus st cs agent_id now).1
      (P ++ (poll_agent_step fileStatus st cs agent_id now).2) := by
  cases hd : detect_change agent_id (lookupA st.agent_statuses agent_id)
      (fetch_agent_status fileStatus st agent_id now) now with
  | none =>
    simp only [poll_agent_step, hd]
    refine ⟨h.1, fun c hc => ?_⟩
    rw [update_tail_alert_cache]
    exact h.2 c hc
  | some change =>
    by_cases hmem : changeHashOf change ∈ st.alert_cache
    · simp only [poll_agent_step, hd, if_pos hmem]
      refine ⟨h.1, fun c hc => ?_⟩
      rw [update_tail_alert_cache]
      exact h.2 c hc
    · cases hl : lookupA st.status_changes agent_id with
      | none =>
        simp only [poll_agent_step, hd, if_neg hmem, hl]
        exact h
      | some recorded =>
        simp only [poll_agent_step, hd, if_neg hmem, hl]
        have hhash : changeHashOf change = hashOfTriple change :=
          detect_change_hash_eq _ _ _ _ _ hd
        constructor
        · rw [← List.append_assoc, List.pairwise_append]
          refine ⟨h.1, List.pairwise_singleton _ _, ?_⟩
          intro a ha b hb
          have hb₁ : b = change := by simpa using hb
          subst hb₁
          intro htr
          have h₁ : hashOfTriple a ∈ st.alert_cache := h.2 a ha
          rw [hash_eq_of_triple_eq _ _ htr, ← hhash] at h₁
          exact hmem h₁
        · intro c hc
          rw [update_tail_alert_cache]
          rw [← List.append_assoc] at hc
          rcases List.mem_append.mp hc with h₁ | h₂
          · exact List.mem_cons_of_mem _ (h.2 c h₁)
          · have hc₁ : c = change := by simpa using h₂
            subst hc₁
            rw [← hhash]
            exact List.mem_cons_self _ _

/-- The cache invariant is preserved by folding the per-agent body over any
agent list. -/
theorem poll_fold_inv (fileStatus : String → Option AgentStatusSnapshot)
    (now : String) (P : List StatusChange) :
    ∀ (ids : List String) (st : MonitorState) (cs : List StatusChange),
      CacheInv st (P ++ cs) →
      CacheInv
        (ids.foldl (fun acc aid => poll_agent_step fileStatus acc.1 acc.2 aid now) (st, cs)).1
        (P ++ (ids.foldl (fun acc aid => poll_agent_step fileStatus acc.1 acc.2 aid now)
          (st, cs)).2)
  | [], _, _, h => h
  | aid :: ids, st, cs, h => by
    simp only [List.foldl_cons]
    exact poll_fold_inv fileStatus now P ids
      (poll_agent_step fileStatus st cs aid now).1
      (poll_agent_step fileStatus st cs aid now).2
      (poll_agent_step_inv fileStatus P st cs aid now h)

/-- One poll cycle preserves the cache invariant, extending the emitted list. -/
theorem poll_agents_inv (fileStatus : String → Option AgentStatusSnapshot)
    (st : MonitorState) (ids : List String) (now : String) (P : List StatusChange)
    (h : CacheInv st P) :
    CacheInv (poll_agents fileStatus st ids now).1
      (P ++ (poll_agents fileStatus st ids now).2) := by
  have h₀ : CacheInv st (P ++ []) := by simpa using h
  exact poll_fold_inv fileStatus now P ids st [] h₀

/-- A whole sequence of poll cycles preserves the cache invariant. -/
theorem run_polls_inv :
    ∀ (cycles : List PollCycle) (st : MonitorState) (out : List StatusChange),
      CacheInv st out →
      CacheInv (run_polls cycles (st, out)).1 (run_polls cycles (st, out)).2
  | [], _, _, h => h
  | cy :: rest, st, out, h => by
    simp only [run_polls]
    exact run_polls_inv rest
      (poll_agents cy.fileStatus st cy.agent_ids cy.now).1
      (out ++ (poll_agents cy.fileStatus st cy.agent_ids cy.now).2)
      (poll_agents_inv cy.fileStatus st cy.agent_ids cy.now out h)

/-- Processing one agent does not disturb another agent's entries in the
three per-agent maps. -/
theorem update_tail_frame (st : MonitorState) (b : String)
    (cur : AgentStatusSnapshot) (now aid : String) (hne : b ≠ aid) :
    lookupA (update_tail st b cur now).agent_statuses aid = lookupA st.agent_statuses aid
    ∧ lookupA (update_tail st b cur now).status_history aid = lookupA st.status_history aid
    ∧ lookupA (update_tail st b cur now).status_changes aid
      = lookupA st.status_changes aid := by
  unfold update_tail
  cases lookupA st.status_history b <;>
    simp [lookupA_insertA_ne _ _ _ _ hne]

/-- The per-agent poll body leaves every other agent's map entries unchanged. -/
theorem poll_agent_step_frame (fileStatus : String → Option AgentStatusSnapshot)
    (st : MonitorState) (cs : List StatusChange) (b now aid : String) (hne : b ≠ aid) :
    lookupA (poll_agent_step fileStatus st cs b now).1.agent_statuses aid
      = lookupA st.agent_statuses aid
    ∧ lookupA (poll_agent_step fileStatus st cs b now).1.status_history aid
      = lookupA st.status_history aid
    ∧ lookupA (poll_agent_step fileStatus st cs b now).1.status_changes aid
      = lookupA st.status_changes aid := by
  cases hd : detect_change b (lookupA st.agent_statuses b)
      (fetch_agent_status fileStatus st b now) now with
  | none =>
    simp only [poll_agent_step, hd]
    exact update_tail_frame st b _ now aid hne
  | some change =>
    by_cases hmem : changeHashOf change ∈ st.alert_cache
    · simp only [poll_agent_step, hd, if_pos hmem]
      exact update_tail_frame st b _ now aid hne
    · cases hl : lookupA st.status_changes b with
      | none => simp [poll_agent_step, hd, if_neg hmem, hl]
      | some recorded =>
        simp only [poll_agent_step, hd, if_neg hmem, hl]
        have hframe := update_tail_frame
          { st with
            status_changes := insertA st.status_changes b (recorded ++ [change])
            alert_cache := changeHashOf change :: st.alert_cache }
          b (fetch_agent_status fileStatus st b now) now aid hne
        refine ⟨hframe.1, hframe.2.1.trans ?_, hframe.2.2.trans ?_⟩
        · rfl
        · exact lookupA_insertA_ne _ _ _ _ hne

/-- Folding the poll body over a list avoiding `aid` leaves `aid`'s entries
unchanged. -/
theorem poll_fold_frame (fileStatus : String → Option AgentStatusSnapshot)
    (now aid : String) :
    ∀ (ids : List String) (st : MonitorState) (cs : List StatusChange), aid ∉ ids →
      lookupA (ids.foldl (fun acc b => poll_agent_step fileStatus acc.1 acc.2 b now)
          (st, cs)).1.agent_statuses aid = lookupA st.agent_statuses aid
      ∧ lookupA (ids.foldl (fun acc b => poll_agent_step fileStatus acc.1 acc.2 b now)
          (st, cs)).1.status_history aid = lookupA st.status_history aid
      ∧ lookupA (ids.foldl (fun acc b => poll_agent_step fileStatus acc.1 acc.2 b now)
          (st, cs)).1.status_changes aid = lookupA st.status_changes aid
  | [], _, _, _ => ⟨rfl, rfl, rfl⟩
  | b :: ids, st, cs, hmem => by
    have hb : b ≠ aid := fun he => hmem (he ▸ List.mem_cons_self b ids)
    have hrest : aid ∉ ids := fun he => hmem (List.mem_cons_of_mem b he)
    simp only [List.foldl_cons]
    have hstep := poll_agent_step_frame fileStatus st cs b now aid hb
    have hfold := poll_fold_frame fileStatus now aid ids
      (poll_agent_step fileStatus st cs b now).1
      (poll_agent_step fileStatus st cs b now).2 hrest
    exact ⟨hfold.1.trans hstep.1, hfold.2.1.trans hstep.2.1, hfold.2.2.trans hstep.2.2⟩

/-- A poll cycle over a list not containing `aid` leaves `aid`'s entries
unchanged. -/
theorem poll_agents_frame (fileStatus : String → Option AgentStatusSnapshot)
    (st : MonitorState) (ids : List String) (now aid : String) (hmem : aid ∉ ids) :
    lookupA (poll_agents fileStatus st ids now).1.agent_statuses aid
      = lookupA st.agent_statuses aid
    ∧ lookupA (poll_agents fileStatus st ids now).1.status_history aid
      = lookupA st.status_history aid
    ∧ lookupA (poll_agents fileStatus st ids now).1.status_changes aid
      = lookupA st.status_changes aid :=
  poll_fold_frame fileStatus now aid ids st [] hmem

/-- The history tail update never shrinks any agent's history. -/
theorem update_tail_histLen (st : MonitorState) (b : String)
    (cur : AgentStatusSnapshot) (now aid : String) :
    histLen st aid ≤ histLen (update_tail st b cur now) aid := by
  unfold update_tail
  cases hb : lookupA st.status_history b with
  | none => simp [histLen]
  | some h =>
    by_cases he : b = aid
    · subst he
      simp [histLen, lookupA_insertA_self, hb]
    · simp [histLen, lookupA_insertA_ne _ _ _ _ he]

/-- The per-agent poll body never shrinks any agent's history. -/
theorem poll_agent_step_histLen (fileStatus : String → Option AgentStatusSnapshot)
    (st : MonitorState) (cs : List StatusChange) (b now aid : String) :
    histLen st aid ≤ histLen (poll_agent_step fileStatus st cs b now).1 aid := by
  cases hd : detect_change b (lookupA st.agent_statuses b)
      (fetch_agent_status fileStatus st b now) now with
  | none =>
    simp only [poll_agent_step, hd]
    exact update_tail_histLen st b _ now aid
  | some change =>
    by_cases hmem : changeHashOf change ∈ st.alert_cache
    · simp only [poll_agent_step, hd, if_pos hmem]
      exact update_tail_histLen st b _ now aid
    · cases hl : lookupA st.status_changes b with
      | none => simp [poll_agent_step, hd, if_neg hmem, hl]
      | some recorded =>
        simp only [poll_agent_step, hd, if_neg hmem, hl]
        have hmono := update_tail_histLen
          { st with
            status_changes := insertA st.status_changes b (recorded ++ [change])
            alert_cache := changeHashOf change :: st.alert_cache }
          b (fetch_agent_status fileStatus st b now) now aid
        simpa [histLen] using hmono

/-- Folding the poll body never shrinks any agent's history. -/
theorem poll_fold_histLen (fileStatus : String → Option AgentStatusSnapshot)
    (now aid : String) :
    ∀ (ids : List String) (st : MonitorState) (cs : List StatusChange),
      histLen st aid ≤
        histLen (ids.foldl (fun acc b => poll_agent_step fileStatus acc.1 acc.2 b now)
          (st, cs)).1 aid
  | [], _, _ => le_refl _
  | b :: ids, st, cs => by
    simp only [List.foldl_cons]
    exact le_trans (poll_agent_step_histLen fileStatus st cs b now aid)
      (poll_fold_histLen fileStatus now aid ids
        (poll_agent_step fileStatus st cs b now).1
        (poll_agent_step fileStatus st cs b now).2)

/-- A poll cycle never shrinks any agent's history. -/
theorem poll_agents_histLen (fileStatus : String → Option AgentStatusSnapshot)
    (st : MonitorState) (ids : List String) (now aid : String) :
    histLen st aid ≤ histLen (poll_agents fileStatus st ids now).1 aid :=
  poll_fold_histLen fileStatus now aid ids st []

/-- A sequence of poll cycles never shrinks any agent's history. -/
theorem run_polls_histLen :
    ∀ (cycles : List PollCycle) (st : MonitorState) (out : List StatusChange)
      (aid : String), histLen st aid ≤ histLen (run_polls cycles (st, out)).1 aid
  | [], _, _, _ => le_refl _
  | cy :: rest, st, out, aid => by
    simp only [run_polls]
    exact le_trans (poll_agents_histLen cy.fileStatus st cy.agent_ids cy.now aid)
      (run_polls_histLen rest (poll_agents cy.fileStatus st cy.agent_ids cy.now).1
        (out ++ (poll_agents cy.fileStatus st cy.agent_ids cy.now).2) aid)

/-- The initialization loop leaves unlisted agents untouched. -/
theorem init_agents_not_mem :
    ∀ (ids : List String) (st : MonitorState) (now aid : String), aid ∉ ids →
      lookupA (init_agents st ids now).agent_statuses aid = lookupA st.agent_statuses aid
      ∧ lookupA (init_agents st ids now).status_history aid = lookupA st.status_history aid
      ∧ lookupA (init_agents st ids now).status_changes aid = lookupA st.status_changes aid
  | [], _, _, _, _ => ⟨rfl, rfl, rfl⟩
  | b :: ids, st, now, aid, h => by
    have hb : b ≠ aid := fun he => h (he ▸ List.mem_cons_self b ids)
    have hr : aid ∉ ids := fun he => h (List.mem_cons_of_mem b he)
    simp only [init_agents, List.foldl_cons]
    have hrest := init_agents_not_mem ids
      { st with
        agent_statuses := insertA st.agent_statuses b (unknownSnapshot b now)
        status_history := insertA st.status_history b []
        status_changes := insertA st.status_changes b [] } now aid hr
    refine ⟨hrest.1.trans ?_, hrest.2.1.trans ?_, hrest.2.2.trans ?_⟩
    · exact lookupA_insertA_ne _ _ _ _ hb
    · exact lookupA_insertA_ne _ _ _ _ hb
    · exact lookupA_insertA_ne _ _ _ _ hb

/-- After the initialization loop, every listed agent has been reset to a
fresh `unknown` snapshot with empty history and changes. -/
theorem init_agents_mem :
    ∀ (ids : List String) (st : MonitorState) (now aid : String), aid ∈ ids →
      lookupA (init_agents st ids now).agent_statuses aid = some (unknownSnapshot aid now)
      ∧ lookupA (init_agents st ids now).status_history aid = some []
      ∧ lookupA (init_agents st ids now).status_changes aid = some []
  | [], _, _, _, h => absurd h (List.not_mem_nil _)
  | b :: ids, st, now, aid, h => by
    by_cases hr : aid ∈ ids
    · simp only [init_agents, List.foldl_cons]
      exact init_agents_mem ids _ now aid hr
    · have hb : b = aid := by
        rcases List.mem_cons.mp h with h₁ | h₂
        · exact h₁.symm
        · exact absurd h₂ hr
      subst hb
      simp only [init_agents, List.foldl_cons]
      have hrest := init_agents_not_mem ids
        { st with
          agent_statuses := insertA st.agent_statuses b (unknownSnapshot b now)
          status_history := insertA st.status_history b []
          status_changes := insertA st.status_changes b [] } now b hr
      refine ⟨hrest.1.trans ?_, hrest.2.1.trans ?_, hrest.2.2.trans ?_⟩
      · exact lookupA_insertA_self _ _ _
      · exact lookupA_insertA_self _ _ _
      · exact lookupA_insertA_self _ _ _

/-- Dropping past the length is the same as dropping the length. -/
theorem drop_min_length {α : Type} (l : List α) (k : Nat) :
    l.drop (min k l.length) = l.drop k := by
  rcases le_total k l.length with h | h
  · rw [Nat.min_eq_left h]
  · rw [Nat.min_eq_right h, List.drop_length, List.drop_eq_nil_of_le h]

/-- The Python slice `l[k:]` for a non-negative start drops the first `k`
elements. -/
theorem pySliceFrom_natCast {α : Type} (l : List α) (k : Nat) :
    pySliceFrom l (k : Int) = l.drop k := by
  unfold pySliceFrom
  rw [if_neg (by omega : ¬ ((k : Int) < 0))]
  have h : (min (k : Int) (l.length : Int)).toNat = min k l.length := by omega
  rw [h, drop_min_length]

/-- When the agent has a history entry, the poll tail stores the fetched
snapshot and appends it to that history. -/
theorem update_tail_registered (st : MonitorState) (aid : String)
    (cur : AgentStatusSnapshot) (now : String) (h : List AgentStatusSnapshot)
    (hh : lookupA st.status_history aid = some h) :
    lookupA (update_tail st aid cur now).agent_statuses aid = some cur
    ∧ lookupA (update_tail st aid cur now).status_history aid = some (h ++ [cur]) := by
  unfold update_tail
  simp only [hh]
  exact ⟨lookupA_insertA_self _ _ _, lookupA_insertA_self _ _ _⟩

/-- `start_monitoring` leaves the map entries of agents outside the given
list untouched (the initialization loop, the scheduling branch, and the
initial poll all skip them). -/
theorem start_monitoring_frame (fileStatus : String → Option AgentStatusSnapshot)
    (cronValid : String → Bool) (st : MonitorState) (agent_ids : List String)
    (pat : Option String) (now aid : String) (hmem : aid ∉ agent_ids) :
    lookupA (start_monitoring fileStatus cronValid st agent_ids pat now).1.agent_statuses aid
      = lookupA st.agent_statuses aid
    ∧ lookupA (start_monitoring fileStatus cronValid st agent_ids pat now).1.status_history aid
      = lookupA st.status_history aid
    ∧ lookupA (start_monitoring fileStatus cronValid st agent_ids pat now).1.status_changes aid
      = lookupA st.status_changes aid := by
  have hinit := init_agents_not_mem agent_ids st now aid hmem
  cases pat with
  | none =>
    simp only [start_monitoring]
    have hpoll := poll_agents_frame fileStatus (init_agents st agent_ids now)
      agent_ids now aid hmem
    exact ⟨hpoll.1.trans hinit.1, hpoll.2.1.trans hinit.2.1, hpoll.2.2.trans hinit.2.2⟩
  | some p =>
    by_cases h₁ : (init_agents st agent_ids now).enable_scheduling
        && !(init_agents st agent_ids now).polling_active
    · by_cases h₂ : cronValid p
      · simp only [start_monitoring, h₁, h₂, if_true]
        have hpoll := poll_agents_frame fileStatus
          { init_agents st agent_ids now with scheduler_running := true }
          agent_ids now aid hmem
        exact ⟨hpoll.1.trans hinit.1, hpoll.2.1.trans hinit.2.1, hpoll.2.2.trans hinit.2.2⟩
      · simp only [start_monitoring, h₁, h₂, if_true, if_false]
        have hpoll := poll_agents_frame fileStatus (init_agents st agent_ids now)
          agent_ids now aid hmem
        exact ⟨hpoll.1.trans hinit.1, hpoll.2.1.trans hinit.2.1, hpoll.2.2.trans hinit.2.2⟩
    · simp only [start_monitoring, h₁, if_false]
      have hpoll := poll_agents_frame fileStatus (init_agents st agent_ids now)
        agent_ids now aid hmem
      exact ⟨hpoll.1.trans hinit.1, hpoll.2.1.trans hinit.2.1, hpoll.2.2.trans hinit.2.2⟩

/-- C1: in a poll cycle, a StatusChange is produced (by the detection step of
`_poll_agents`) if and only if a last-known snapshot for the agent exists in
the monitor state and the freshly fetched status differs from it; when no
prior snapshot exists, the per-agent body emits nothing, records nothing, adds
nothing to the dedup cache, and only seeds the state with the observation. -/
theorem change_detected_iff
    (fileStatus : String → Option AgentStatusSnapshot) (st : MonitorState)
    (cs : List StatusChange) (aid now : String) :
    ((detect_change aid (lookupA st.agent_statuses aid)
        (fetch_agent_status fileStatus st aid now) now).isSome = true
      ↔ ∃ prev, lookupA st.agent_statuses aid = some prev
          ∧ (fetch_agent_status fileStatus st aid now).status ≠ prev.status)
    ∧ (lookupA st.agent_statuses aid = none →
        (poll_agent_step fileStatus st cs aid now).2 = cs
        ∧ (poll_agent_step fileStatus st cs aid now).1.status_changes = st.status_changes
        ∧ (poll_agent_step fileStatus st cs aid now).1.alert_cache = st.alert_cache
        ∧ lookupA (poll_agent_step fileStatus st cs aid now).1.agent_statuses aid
            = some (fetch_agent_status fileStatus st aid now)) := by
  constructor
  · cases hp : lookupA st.agent_statuses aid with
    | none => simp [detect_change, hp]
    | some prev =>
      by_cases hs : (fetch_agent_status fileStatus st aid now).status = prev.status
      · simp [detect_change, hp, hs]
      · simp [detect_change, hp, hs]
  · intro hp
    have hd : detect_change aid (lookupA st.agent_statuses aid)
        (fetch_agent_status fileStatus st aid now) now = none := by
      rw [hp]; rfl
    simp only [poll_agent_step, hd]
    exact ⟨trivial, update_tail_status_changes st aid _ now,
      update_tail_alert_cache st aid _ now, update_tail_agent_statuses st aid _ now⟩

/-- Witness for C1 at a concrete first observation: polling agent `a` on a
fresh monitor emits no change and only seeds the state. -/
theorem change_detected_iff_witness :
    (poll_agent_step fetchRunning initMonitor [] "a" "t1").2 = []
    ∧ (poll_agent_step fetchRunning initMonitor [] "a" "t1").1.alert_cache = []
    ∧ lookupA (poll_agent_step fetchRunning initMonitor [] "a" "t1").1.agent_statuses "a"
      = some (fetch_agent_status fetchRunning initMonitor "a" "t1") := by
  have h := (change_detected_iff fetchRunning initMonitor [] "a" "t1").2 rfl
  exact ⟨h.1, h.2.2.1, h.2.2.2⟩

/-- C2: across any sequence of poll cycles from any starting state, no two
emitted StatusChange events (equivalently, notification dispatches) share the
same `(agent_id, previous_status, new_status)` transition triple — the
fingerprint is a deterministic function of the triple alone and is checked
against the ever-growing alert cache. -/
theorem dedup_at_most_once_per_triple (cycles : List PollCycle) (st : MonitorState) :
    List.Pairwise (fun c₁ c₂ => tripleOf c₁ ≠ tripleOf c₂) (monitor_run cycles st).2 :=
  (run_polls_inv cycles st [] ⟨List.Pairwise.nil, by simp⟩).1

/-- Counterexample for C3: calling `start_monitoring` again with an agent set
containing the already-monitored agent `a` does not leave that agent's state
unchanged — the snapshot, the history, and the recorded changes are all
reset. -/
theorem restart_disturbs_existing_state :
    lookupA (start_monitoring (fun _ => none) (fun _ => false) stMonitored
        ["a"] none "t2").1.agent_statuses "a" ≠ lookupA stMonitored.agent_statuses "a"
    ∧ lookupA (start_monitoring (fun _ => none) (fun _ => false) stMonitored
        ["a"] none "t2").1.status_history "a" ≠ lookupA stMonitored.status_history "a"
    ∧ lookupA (start_monitoring (fun _ => none) (fun _ => false) stMonitored
        ["a"] none "t2").1.status_changes "a" ≠ lookupA stMonitored.status_changes "a" := by
  decide

/-- C3 (amended): `start_monitoring` reinitializes every agent in the given
list — overwriting its snapshot with a fresh `unknown` snapshot and clearing
its history and changes, before the immediate initial poll — while every
agent not in the list keeps its snapshot, history, and changes untouched. -/
theorem start_monitoring_reinitializes
    (fileStatus : String → Option AgentStatusSnapshot) (cronValid : String → Bool)
    (st : MonitorState) (agent_ids : List String) (pat : Option String)
    (aid now : String) :
    (aid ∈ agent_ids →
      lookupA (init_agents st agent_ids now).agent_statuses aid
        = some (unknownSnapshot aid now)
      ∧ lookupA (init_agents st agent_ids now).status_history aid = some []
      ∧ lookupA (init_agents st agent_ids now).status_changes aid = some [])
    ∧ (aid ∉ agent_ids →
      lookupA (start_monitoring fileStatus cronValid st agent_ids pat now).1.agent_statuses aid
        = lookupA st.agent_statuses aid
      ∧ lookupA (start_monitoring fileStatus cronValid st agent_ids pat now).1.status_history aid
        = lookupA st.status_history aid
      ∧ lookupA (start_monitoring fileStatus cronValid st agent_ids pat now).1.status_changes aid
        = lookupA st.status_changes aid) :=
  ⟨fun h => init_agents_mem agent_ids st now aid h,
   fun h => start_monitoring_frame fileStatus cronValid st agent_ids pat now aid h⟩

/-- Witness for C3 (amended) at concrete inputs: restarting with `[a]` resets
agent `a`'s history and leaves the unlisted agent `b` untouched. -/
theorem start_monitoring_reinitializes_witness :
    lookupA (init_agents stMonitored ["a"] "t2").status_history "a" = some []
    ∧ lookupA (start_monitoring (fun _ => none) (fun _ => false) stMonitored
        ["a"] none "t2").1.status_history "b" = lookupA stMonitored.status_history "b" := by
  have h₁ := start_monitoring_reinitializes (fun _ => none) (fun _ => false)
    stMonitored ["a"] none "a" "t2"
  have h₂ := start_monitoring_reinitializes (fun _ => none) (fun _ => false)
    stMonitored ["a"] none "b" "t2"
  exact ⟨(h₁.1 (by decide)).2.1, (h₂.2 (by decide)).2.1⟩

/-- C4: for a registered agent (history and changes entries present, so the
per-agent body raises no KeyError), the poll body always stores the freshly
fetched snapshot as current and appends it to the history, change or no
change; and across any sequence of poll cycles no agent's history ever
shrinks. -/
theorem poll_always_updates :
    (∀ (fileStatus : String → Option AgentStatusSnapshot) (st : MonitorState)
       (cs : List StatusChange) (aid now : String) (h : List AgentStatusSnapshot),
       lookupA st.status_history aid = some h →
       (lookupA st.status_changes aid).isSome = true →
       lookupA (poll_agent_step fileStatus st cs aid now).1.agent_statuses aid
         = some (fetch_agent_status fileStatus st aid now)
       ∧ lookupA (poll_agent_step fileStatus st cs aid now).1.status_history aid
         = some (h ++ [fetch_agent_status fileStatus st aid now]))
    ∧ ∀ (cycles : List PollCycle) (st : MonitorState) (out : List StatusChange)
        (aid : String), histLen st aid ≤ histLen (run_polls cycles (st, out)).1 aid := by
  constructor
  · intro fileStatus st cs aid now h hh hc
    cases hd : detect_change aid (lookupA st.agent_statuses aid)
        (fetch_agent_status fileStatus st aid now) now with
    | none =>
      simp only [poll_agent_step, hd]
      exact update_tail_registered st aid _ now h hh
    | some change =>
      by_cases hmem : changeHashOf change ∈ st.alert_cache
      · simp only [poll_agent_step, hd, if_pos hmem]
        exact update_tail_registered st aid _ now h hh
      · cases hl : lookupA st.status_changes aid with
        | none => rw [hl] at hc; simp at hc
        | some recorded =>
          simp only [poll_agent_step, hd, if_neg hmem, hl]
          exact update_tail_registered _ aid _ now h hh
  · exact fun cycles st out aid => run_polls_histLen cycles st out aid

/-- Witness for C4 at a concrete registered agent: one poll appends the
fetched `running` snapshot to agent `a`'s empty history. -/
theorem poll_always_updates_witness :
    lookupA (poll_agent_step fetchRunning stRegistered [] "a" "t1").1.agent_statuses "a"
      = some (fetch_agent_status fetchRunning stRegistered "a" "t1")
    ∧ lookupA (poll_agent_step fetchRunning stRegistered [] "a" "t1").1.status_history "a"
      = some [fetch_agent_status fetchRunning stRegistered "a" "t1"] := by
  have h := poll_always_updates.1 fetchRunning stRegistered [] "a" "t1" []
    (by decide) (by decide)
  exact ⟨h.1, h.2⟩

/-- C5 (code evaluated at the failing input): `_notify_log` compares
`change.new_status` against the uppercase enum names `FAILED` and `TIMEOUT`,
but every status in the `AgentStatus` set is a lowercase value, so the log
channel emits INFO for every AgentStatus — including `failed` and `timeout` —
while `_notify_slack`'s analogous lowercase check does treat `failed` as
alarming. -/
theorem notify_log_never_warns :
    (∀ s : AgentStatus, notify_log_level (mkChange "running" s.value) = "INFO")
    ∧ notify_slack_color (mkChange "running" AgentStatus.failed.value) = "danger" := by
  constructor
  · intro s
    cases s <;> rfl
  · rfl

/-- Counterexample for C6: `get_status_history` for an agent that was never
registered returns the plain empty list — exactly what a registered agent
with an empty history returns — so no error result is produced for the
history query. -/
theorem history_unregistered_not_error :
    get_status_history stRegistered "ghost" 100 = get_status_history stRegistered "a" 100
    ∧ get_status_history stRegistered "ghost" 100 = []
    ∧ lookupA stRegistered.status_history "ghost" = none
    ∧ (lookupA stRegistered.status_history "a").isSome = true := by
  decide

/-- C6 (amended): for an agent never registered, `get_agent_status` returns
the structured error result (and never raises), while `get_status_history`
returns the empty list — indistinguishable from an empty history — also
without raising. -/
theorem unknown_agent_query_results
    (st : MonitorState) (aid : String) (limit : Int) :
    (lookupA st.agent_statuses aid = none →
      get_agent_status st aid
        = some (AgentStatusResult.err ("Agent " ++ aid ++ " not being monitored")))
    ∧ (lookupA st.status_history aid = none → get_status_history st aid limit = []) := by
  constructor
  · intro h
    simp [get_agent_status, h]
  · intro h
    simp [get_status_history, h]

/-- Witness for C6 (amended) on a fresh monitor and the unknown agent
`ghost`. -/
theorem unknown_agent_query_results_witness :
    get_agent_status initMonitor "ghost"
      = some (AgentStatusResult.err "Agent ghost not being monitored")
    ∧ get_status_history initMonitor "ghost" 100 = [] := by
  have h := unknown_agent_query_results initMonitor "ghost" 100
  exact ⟨h.1 rfl, h.2 rfl⟩

/-- Counterexample for C7: invoking the control surface with action `start`
and an empty `agent_ids` list yields a success result, not an error result. -/
theorem empty_start_returns_success :
    ((execute_skill (fun _ => none) (fun _ => false) initMonitor
        { action := some "start", agent_ids := some [] } "t0").2).isSuccess = true := by
  decide

/-- C7 (amended): `execute_skill` with action `start` and an empty agent list
returns a success result describing an empty monitoring run (zero initial
poll changes); only an unrecognized action name is surfaced as a structured
error result. -/
theorem empty_start_success_shape
    (fileStatus : String → Option AgentStatusSnapshot) (cronValid : String → Bool)
    (st : MonitorState) (now : String) :
    (execute_skill fileStatus cronValid st
        { action := some "start", agent_ids := some [] } now).2
      = SkillResult.success (SkillData.startData
          { status := "monitoring_started"
            agents := []
            poll_interval := st.poll_interval
            timestamp := now
            scheduling_enabled := st.enable_scheduling
            notification_channels := st.notification_channels
            initial_poll_changes := some 0 })
    ∧ (execute_skill fileStatus cronValid st { action := some "bogus" } now).2
      = SkillResult.errorResult "Unknown action: bogus" :=
  ⟨rfl, rfl⟩

/-- Counterexample for C8: with the same collaborator behaviour (an HTTP
client whose connection error message embeds the URL, as real ones do), two
runs that differ only in the configured webhook URL produce different
structured log records — the secret reaches the error record via `str(e)`. -/
theorem webhook_logs_depend_on_url :
    notify_webhook (some "https://hooks.example.com/aaa") leakPost sampleChange
      ≠ notify_webhook (some "https://hooks.example.com/bbb") leakPost sampleChange := by
  decide

/-- C8 (amended): the structured log records of the webhook and Slack
channels depend on the configured URL only through the delivery outcome: for
any fixed outcome (success, or an exception whose message does not depend on
the URL), two runs differing only in the URL emit identical records, which
carry only the operation name, the outcome status, and non-secret change
fields; only when the collaborator's exception message itself embeds the URL
can the secret reach the error record. -/
theorem channel_logs_url_independent
    (u₁ u₂ : String) (o : PostOutcome) (change : StatusChange)
    (h₁ : (startsWithStr u₁ "http://" || startsWithStr u₁ "https://") = true)
    (h₂ : (startsWithStr u₂ "http://" || startsWithStr u₂ "https://") = true) :
    notify_webhook (some u₁) (fun _ => o) change
      = notify_webhook (some u₂) (fun _ => o) change
    ∧ notify_slack (some u₁) (fun _ => o) change
      = notify_slack (some u₂) (fun _ => o) change := by
  constructor <;> simp [notify_webhook, notify_slack, h₁, h₂]

/-- Witness for C8 (amended): two distinct valid URLs with a successful
delivery produce identical webhook log records. -/
theorem channel_logs_url_independent_witness :
    notify_webhook (some "https://hooks.example.com/aaa") (fun _ => PostOutcome.ok)
        sampleChange
      = notify_webhook (some "https://hooks.example.com/bbb") (fun _ => PostOutcome.ok)
        sampleChange :=
  (channel_logs_url_independent "https://hooks.example.com/aaa"
    "https://hooks.example.com/bbb" PostOutcome.ok sampleChange
    (by decide) (by decide)).1

/-- Counterexample for C9: the empty string is a non-None `agent_id`, but it
is falsy under the source's `if agent_id:` test (line 569), so with the
scheduler running `stop_monitoring("")` is not a no-op — it shuts the
scheduler down and clears `polling_active`. -/
theorem stop_empty_agent_shuts_scheduler :
    (stop_monitoring stSched (some "") "t3").1 ≠ stSched
    ∧ (stop_monitoring stSched (some "") "t3").1.scheduler_running = false
    ∧ (stop_monitoring stSched (some "") "t3").1.polling_active = false
    ∧ (stop_monitoring stSched (some "") "t3").2.status = "monitoring_stopped" := by
  decide

/-- C9 (amended): `stop_monitoring` with a truthy (non-None, non-empty)
agent id changes nothing at all — the scheduler keeps running,
`polling_active` and every per-agent structure are untouched — yet it still
returns a `monitoring_stopped` record for that agent; the no-argument form,
and likewise the falsy empty-string form, shut the scheduler down. -/
theorem stop_monitoring_truthy_agent_noop (st : MonitorState) (aid now : String)
    (ha : aid ≠ "") :
    (stop_monitoring st (some aid) now).1 = st
    ∧ (stop_monitoring st (some aid) now).2
      = { status := "monitoring_stopped", agent_id := some aid, timestamp := now }
    ∧ (st.enable_scheduling = true →
        (stop_monitoring st none now).1.scheduler_running = false
        ∧ (stop_monitoring st (some "") now).1.scheduler_running = false) := by
  refine ⟨?_, rfl, ?_⟩
  · unfold stop_monitoring
    by_cases h : st.enable_scheduling && st.scheduler_running <;>
      simp [h, truthyStr, ha]
  · intro he
    unfold stop_monitoring
    by_cases h : st.scheduler_running <;> simp [he, h, truthyStr]

/-- Witness for C9 (amended) on a concrete state with the scheduler armed:
a truthy agent id leaves the state intact, the no-argument form stops the
scheduler. -/
theorem stop_monitoring_truthy_agent_noop_witness :
    (stop_monitoring stSched (some "a") "t3").1 = stSched
    ∧ (stop_monitoring stSched none "t3").1.scheduler_running = false := by
  have h := stop_monitoring_truthy_agent_noop stSched "a" "t3" (by decide)
  exact ⟨h.1, (h.2.2 (by decide)).1⟩

/-- C10: for a registered agent, `get_status_history` with `limit = 0`
returns the whole history (the slice `[-0:]` selects everything), and a
negative limit `-k` drops the first `k` snapshots instead of limiting the
result. -/
theorem history_limit_zero_returns_all (st : MonitorState) (aid : String)
    (h : List AgentStatusSnapshot) (hh : lookupA st.status_history aid = some h) :
    get_status_history st aid 0 = h
    ∧ ∀ k : Nat, get_status_history st aid (-(k : Int)) = h.drop k := by
  constructor
  · have h₀ := pySliceFrom_natCast h 0
    simp only [get_status_history, hh]
    simpa using h₀
  · intro k
    simp only [get_status_history, hh, neg_neg]
    exact pySliceFrom_natCast h k

/-- Witness for C10 on a concrete two-entry history. -/
theorem history_limit_zero_returns_all_witness :
    get_status_history stMonitored "a" 0 = [snapUnknownA, snapRunningA]
    ∧ get_status_history stMonitored "a" (-1) = [snapRunningA] := by
  have h := history_limit_zero_returns_all stMonitored "a" [snapUnknownA, snapRunningA]
    (by decide)
  exact ⟨h.1, h.2 1⟩
